import Mathlib

/-!
Verification of the Snap2Style backend's credit/quota and entitlement
engine (`snap2style-backend/main.py`), as a shallow embedding in Lean.

Time is modelled in whole seconds (`Nat`); `datetime.utcnow()` becomes an
explicit `now : Nat` parameter.  Credit balances are `Int` so that
non-negativity is a real property, not a typing artifact.  Database tables
become association lists; the usage log (`generation_logs`) is a list of
records appended in order.  Python truthiness of optional ids
(`if user_id:` is false for `None`, `0` and `""`) is modelled explicitly.
-/

namespace Snap2Style

/-- Constant `DAILY_FREE_LIMIT = 2` (main.py line 72). -/
def DAILY_FREE_LIMIT : Nat := 2

/-- 24 hours in seconds, the rolling window `timedelta(hours=24)`. -/
def WINDOW : Nat := 86400

/-- Row of the `users` table (columns relevant to entitlement). -/
structure UserRec where
  email : String
  is_verified : Bool
  free_credits : Int
  verify_bonus_claimed : Bool
  deriving Repr, DecidableEq

/-- Row of the `guests` table. -/
structure GuestRec where
  credits : Int
  last_seen : Nat
  deriving Repr, DecidableEq

/-- Row of the `generation_logs` table: exactly one of `user_id` /
`guest_id` is set by `log_generation_db`. -/
structure GenLog where
  user_id : Option Nat
  guest_id : Option String
  created_at : Nat
  deriving Repr, DecidableEq

/-- The persistent state touched by the entitlement engine: the three
tables plus the contents of the `uploads` directory (file names). -/
structure DB where
  users : List (Nat × UserRec)
  guests : List (String × GuestRec)
  logs : List GenLog
  uploads : List String
  deriving Repr, DecidableEq

/-- Association-list lookup (first match), modelling a primary-key get. -/
def lookupA {κ α : Type} [BEq κ] (l : List (κ × α)) (k : κ) : Option α :=
  match l with
  | [] => none
  | (k0, v0) :: rest => if k0 == k then some v0 else lookupA rest k

/-- Association-list update: replace the row with key `k`, or append a
fresh row when absent (an SQL UPDATE-or-INSERT on the primary key). -/
def setA {κ α : Type} [BEq κ] (l : List (κ × α)) (k : κ) (v : α) : List (κ × α) :=
  match l with
  | [] => [(k, v)]
  | (k0, v0) :: rest => if k0 == k then (k, v) :: rest else (k0, v0) :: setA rest k v

def lookupUser (db : DB) (uid : Nat) : Option UserRec := lookupA db.users uid

def setUser (db : DB) (uid : Nat) (u : UserRec) : DB :=
  { db with users := setA db.users uid u }

def lookupGuest (db : DB) (gid : String) : Option GuestRec := lookupA db.guests gid

def setGuest (db : DB) (gid : String) (g : GuestRec) : DB :=
  { db with guests := setA db.guests gid g }

/-- Query `db.scalar(select(User).where(User.email == email))` — first user row
with the given email. -/
def lookupUserByEmail (db : DB) (email : String) : Option (Nat × UserRec) :=
  db.users.find? (fun p => p.2.email == email)

/-- Python truthiness of an optional integer id (`if user_id:`). -/
def truthyNat : Option Nat → Bool
  | none => false
  | some n => n != 0

/-- Python truthiness of an optional string id (`if guest_id:`). -/
def truthyStr : Option String → Bool
  | none => false
  | some s => s != ""

/-- Function `log_generation_db` (main.py lines 355-358): append one row with the
acting identity and the current timestamp. -/
def log_generation_db (db : DB) (now : Nat) (user_id : Option Nat)
    (guest_id : Option String) : DB :=
  { db with logs := db.logs ++ [{ user_id := user_id, guest_id := guest_id, created_at := now }] }

/-- The row filter used by `count_last_24h`: inside the trailing 24h
window, and matching whichever of the two optional ids is truthy.
`since = utcnow - 24h` can be negative in Python; as `created_at ≥ 0`
always, truncated `Nat` subtraction gives the same filter. -/
def matchRow (now : Nat) (user_id : Option Nat) (guest_id : Option String)
    (l : GenLog) : Bool :=
  decide (now - WINDOW ≤ l.created_at)
    && (if truthyNat user_id then l.user_id == user_id else true)
    && (if truthyStr guest_id then l.guest_id == guest_id else true)

/-- Function `count_last_24h` (main.py lines 360-368). -/
def count_last_24h (db : DB) (now : Nat) (user_id : Option Nat)
    (guest_id : Option String) : Nat :=
  (db.logs.filter (matchRow now user_id guest_id)).length

/-- Descending comparison on log rows: `a` comes before `b` when
`b.created_at ≤ a.created_at`. -/
def descGE (a b : GenLog) : Prop := b.created_at ≤ a.created_at

instance : DecidableRel descGE := fun a b => Nat.decLe b.created_at a.created_at

instance : IsTotal GenLog descGE := ⟨fun a b => Nat.le_total b.created_at a.created_at⟩

instance : IsTrans GenLog descGE := ⟨fun _ _ _ hab hbc => Nat.le_trans hbc hab⟩

/-- Ordering `ORDER BY created_at DESC` as a stable insertion sort. -/
def sortDesc (l : List GenLog) : List GenLog := List.insertionSort descGE l

/-- The row filter used by `next_available_ts` (predicate order as in the
source: user match first, then the window bound). -/
def matchUserRow (now : Nat) (uid : Nat) (l : GenLog) : Bool :=
  l.user_id == some uid && decide (now - WINDOW ≤ l.created_at)

/-- Function `next_available_ts` (main.py lines 370-382): the user's in-window log
rows, newest first; when at least `DAILY_FREE_LIMIT` of them exist, the
`DAILY_FREE_LIMIT`-th most recent one plus 24 hours. -/
def next_available_ts (db : DB) (now : Nat) (uid : Nat) : Option Nat :=
  if (sortDesc (db.logs.filter (matchUserRow now uid))).length < DAILY_FREE_LIMIT then
    none
  else
    match (sortDesc (db.logs.filter (matchUserRow now uid)))[DAILY_FREE_LIMIT - 1]? with
    | some kth => some (kth.created_at + WINDOW)
    | none => none

/-- Resolution `gid = request.cookies.get(GUEST_COOKIE); if not gid: gid = uuid4().hex`
— the guest id used for this request: the cookie when present and
non-empty, otherwise a fresh id. -/
def resolveGid (cookie : Option String) (fresh : String) : String :=
  match cookie with
  | some s => if s == "" then fresh else s
  | none => fresh

/-- Function `get_or_create_guest` (main.py lines 340-353): create the guest row
with `credits = 2` when absent, otherwise refresh `last_seen`.  Returns
the guest id, the row as returned to the caller, and the updated state. -/
def get_or_create_guest (db : DB) (now : Nat) (cookie : Option String)
    (fresh : String) : String × GuestRec × DB :=
  match lookupGuest db (resolveGid cookie fresh) with
  | none =>
      (resolveGid cookie fresh, { credits := 2, last_seen := now },
       setGuest db (resolveGid cookie fresh) { credits := 2, last_seen := now })
  | some g =>
      (resolveGid cookie fresh, { g with last_seen := now },
       setGuest db (resolveGid cookie fresh) { g with last_seen := now })

/-! ### Verification paths (the writes they perform on the `users` table) -/

/-- The user update performed by `/auth/verify` (main.py lines 589-593)
and, identically, by `/auth/verify-otp` (lines 642-646): set
`is_verified`, and grant the +2 bonus only when `verify_bonus_claimed`
is still false, setting the flag. -/
def applyVerify (u : UserRec) : UserRec :=
  if u.verify_bonus_claimed then { u with is_verified := true }
  else
    { u with
      is_verified := true
      free_credits := u.free_credits + 2
      verify_bonus_claimed := true }

/-- Endpoint `/auth/verify` with a valid token for user `uid` (main.py lines
579-600); an unknown user is a 400 with no state change. -/
def verify_email (db : DB) (uid : Nat) : DB :=
  match lookupUser db uid with
  | none => db
  | some u => setUser db uid (applyVerify u)

/-- Endpoint `/auth/verify-otp` with a valid code (main.py lines 622-653): the
same user update as `verify_email`. -/
def verify_otp (db : DB) (uid : Nat) : DB :=
  verify_email db uid

/-- Endpoint `/auth/register` (main.py lines 530-577): create the user with
`is_verified = False, free_credits = 0` unless the email is taken. -/
def register (db : DB) (email : String) (freshUid : Nat) : DB :=
  match lookupUserByEmail db email with
  | some _ => db
  | none =>
      setUser db freshUid
        { email := email, is_verified := false, free_credits := 0,
          verify_bonus_claimed := false }

/-- First user update of the Google OAuth callback (main.py lines
780-781): mark the account verified when Google vouches for the email. -/
def gcalVerify (email_verified : Bool) (u : UserRec) : UserRec :=
  if email_verified && !u.is_verified then { u with is_verified := true } else u

/-- Second user update of the Google OAuth callback (main.py lines
782-784): the +2 bonus, gated by `verify_bonus_claimed`. -/
def gcalBonus (email_verified : Bool) (u : UserRec) : UserRec :=
  if email_verified && !u.verify_bonus_claimed then
    { u with free_credits := u.free_credits + 2, verify_bonus_claimed := true }
  else u

/-- Endpoint `/auth/google/callback` after a successful token exchange returning
`email` and `email_verified` (main.py lines 766-785).  A new user is
created with `free_credits = 2` and `verify_bonus_claimed` set when the
email is verified; an existing user is upgraded, the bonus gated by
`verify_bonus_claimed`. -/
def google_callback (db : DB) (email : String) (email_verified : Bool)
    (freshUid : Nat) : DB :=
  match lookupUserByEmail db email with
  | none =>
      setUser db freshUid
        { email := email, is_verified := email_verified,
          free_credits := if email_verified then 2 else 0,
          verify_bonus_claimed := email_verified }
  | some (uid, u) => setUser db uid (gcalBonus email_verified (gcalVerify email_verified u))

/-- Endpoint `/auth/google-idtoken` with a valid Google ID token for `email`
(main.py lines 814-822).  A new user is created with
`is_verified = True, free_credits = 2`; the `User(...)` constructor does
not pass `verify_bonus_claimed`, so the column default `False` applies.
An existing user is only logged in, with no row update. -/
def google_idtoken_login (db : DB) (email : String) (freshUid : Nat) : DB :=
  match lookupUserByEmail db email with
  | none =>
      setUser db freshUid
        { email := email, is_verified := true, free_credits := 2,
          verify_bonus_claimed := false }
  | some _ => db

/-! ### The `/credits` endpoint (the spec's `describe` query) -/

/-- The JSON body returned by `/credits` (main.py lines 827-851), fields
common to the user and guest shapes. -/
structure CreditsOut where
  kind : String
  verified : Bool
  free_credits : Option Int
  guest_credits : Option Int
  daily_limit : Nat
  used_last_24h : Nat
  next_available_ts : Option Nat
  deriving Repr, DecidableEq

/-- Endpoint `/credits` (main.py lines 827-851).  For a logged-in user it is a pure
read; for a guest it first runs `get_or_create_guest` (which writes).
`none` in the first component models the 500 a vanished user row would
cause; users are never deleted. -/
def creditsEP (db : DB) (now : Nat) (user : Option Nat) (cookie : Option String)
    (fresh : String) : Option CreditsOut × DB :=
  match user with
  | some uid =>
      match lookupUser db uid with
      | some u =>
          (some { kind := "user", verified := u.is_verified,
                  free_credits := some u.free_credits, guest_credits := none,
                  daily_limit := DAILY_FREE_LIMIT,
                  used_last_24h := count_last_24h db now (some uid) none,
                  next_available_ts := next_available_ts db now uid }, db)
      | none => (none, db)
  | none =>
      (some { kind := "guest", verified := false,
              free_credits := none,
              guest_credits := some (get_or_create_guest db now cookie fresh).2.1.credits,
              daily_limit := 0,
              used_last_24h := count_last_24h (get_or_create_guest db now cookie fresh).2.2
                now none (some (get_or_create_guest db now cookie fresh).1),
              next_available_ts := none },
       (get_or_create_guest db now cookie fresh).2.2)

/-! ### The `/style-image` endpoint -/

/-- The entitlement decision embedded in the endpoint's responses:
`allowed b` for proceeding with accounting bucket `b`, a 429 with the
daily-limit payload, or a 402 with the register call-to-action. -/
inductive Decision where
  | allowed (bucket : String)
  | deniedDaily (used : Nat) (limit : Nat) (retry_after : Nat)
  | deniedGuest (cta : String)
  deriving Repr, DecidableEq

/-- The acting identity recorded by the enforcement section
(`who_kind, who_id`). -/
inductive Who where
  | user (uid : Nat)
  | guest (gid : String)
  deriving Repr, DecidableEq

/-- Outcome of the `---- ENFORCE CREDITS ----` section of `/style-image`
(main.py lines 879-914): a denial response, or permission to proceed
with the acting identity and the bucket that authorized it.  `error`
models the 500 a vanished user row would cause. -/
inductive EnforceOut where
  | denied (d : Decision) (db : DB)
  | proceed (who : Who) (bucket : String) (db : DB)
  | error (db : DB)
  deriving Repr, DecidableEq

/-- The state carried in an `EnforceOut`. -/
def EnforceOut.dbOf : EnforceOut → DB
  | .denied _ db => db
  | .proceed _ _ db => db
  | .error db => db

/-- Computation `wait = int(max(0, ts - utcnow())) if ts else 3600` (main.py line
891): `ts` is falsy when `None` or `0`; truncated `Nat` subtraction is
`max 0` of the difference. -/
def retryWait (ts : Option Nat) (now : Nat) : Nat :=
  match ts with
  | none => 3600
  | some t => if t == 0 then 3600 else t - now

/-- The registered-user half of the enforcement section (main.py lines
881-902), applied to `db.get(User, user.id)`: prepaid debit when verified
with a positive balance, otherwise the rolling 24h window. -/
def userDebitCheck (db : DB) (now : Nat) (uid : Nat) : Option UserRec → EnforceOut
  | none => .error db
  | some u =>
      if u.is_verified && decide (0 < u.free_credits) then
        .proceed (.user uid) "prepaid"
          (setUser db uid { u with free_credits := u.free_credits - 1 })
      else if DAILY_FREE_LIMIT ≤ count_last_24h db now (some uid) none then
        .denied (.deniedDaily (count_last_24h db now (some uid) none)
          DAILY_FREE_LIMIT (retryWait (next_available_ts db now uid) now)) db
      else
        .proceed (.user uid) "daily_quota" db

/-- The guest half of the enforcement section (main.py lines 903-913),
applied to `db.get(Guest, g.id)`: a 402 at zero credits, otherwise a
debit of one credit. -/
def guestDebitCheck (db : DB) (gid : String) : Option GuestRec → EnforceOut
  | none => .error db
  | some gg =>
      if gg.credits ≤ 0 then
        .denied (.deniedGuest "register") db
      else
        .proceed (.guest gid) "guest"
          (setGuest db gid { gg with credits := gg.credits - 1 })

/-- The enforcement section of `/style-image` (main.py lines 879-914),
evaluated as the source's ordered decision tree. -/
def enforce (db : DB) (now : Nat) (user : Option Nat) (cookie : Option String)
    (fresh : String) : EnforceOut :=
  match user with
  | some uid => userDebitCheck db now uid (lookupUser db uid)
  | none =>
      guestDebitCheck (get_or_create_guest db now cookie fresh).2.2
        (get_or_create_guest db now cookie fresh).1
        (lookupGuest (get_or_create_guest db now cookie fresh).2.2
          (get_or_create_guest db now cookie fresh).1)

/-- The Python `str.lower()` method over the character sequence. -/
def pyLower (s : String) : String := ⟨s.data.map Char.toLower⟩

/-- The Python `str.startswith(pre)` method. -/
def pyStartsWith (s pre : String) : Bool := pre.data.isPrefixOf s.data

/-- The request fields of `/style-image` that the modelled behavior
depends on. -/
structure StyleReq where
  ctype : String
  size : Nat
  fname : String
  deriving Repr, DecidableEq

/-- The Python single-character replace of blank by underscore. -/
def pyUnderscore (s : String) : String :=
  ⟨s.data.map (fun c => if c = ' ' then '_' else c)⟩

/-- Naming `safe_name = f"{int(time.time())}_{file.filename.replace(' ', '_')}"`
(main.py line 872). -/
def safeName (now : Nat) (fname : String) : String :=
  toString now ++ "_" ++ pyUnderscore fname

/-- Overall outcome of `/style-image`: 400 on an invalid upload, a denial
response, 400 on an unknown `AI_PROVIDER`, a 500 on a vanished user row,
or the 200 payload (tagged with the bucket that authorized it). -/
inductive StyleOutcome where
  | badFile
  | denied (d : Decision)
  | unknownProvider
  | serverError
  | ok (bucket : String)
  deriving Repr, DecidableEq

/-- Selector `who_kind == "user"` selects `log_generation_db(user_id=...)` (main.py
lines 959-962): the `user_id` argument of the usage-log insert. -/
def whoUserId : Who → Option Nat
  | .user uid => some uid
  | .guest _ => none

/-- The `guest_id` argument of the usage-log insert. -/
def whoGuestId : Who → Option String
  | .user _ => none
  | .guest gid => some gid

/-- The `---- GENERATION ----` section plus the post-generation logging
(main.py lines 916-973): the mock provider echoes the upload; Stability
writes the styled output on success and falls back to the upload on
failure; both paths then append one usage-log row.  An unknown
`AI_PROVIDER` returns a 400 before any logging. -/
def styleGen (db2 : DB) (now : Nat) (who : Who) (bucket : String)
    (provider : String) (providerOk : Bool) : StyleOutcome × DB :=
  if provider == "mock" then
    (.ok bucket, log_generation_db db2 now (whoUserId who) (whoGuestId who))
  else if provider == "stability" then
    (.ok bucket,
     log_generation_db
       (if providerOk then
          { db2 with uploads := db2.uploads ++ [toString now ++ "_styled.png"] }
        else db2)
       now (whoUserId who) (whoGuestId who))
  else (.unknownProvider, db2)

/-- Dispatch on the enforcement outcome: a denial or error is returned as
the response; a permitted request continues to generation and logging. -/
def stylePostCore (now : Nat) (provider : String) (providerOk : Bool) :
    EnforceOut → StyleOutcome × DB
  | .denied d db2 => (.denied d, db2)
  | .error db2 => (.serverError, db2)
  | .proceed who bucket db2 => styleGen db2 now who bucket provider providerOk

/-- Endpoint `/style-image` after the upload has been stored: enforcement, then
generation and logging. -/
def stylePost (db1 : DB) (now : Nat) (user : Option Nat) (cookie : Option String)
    (fresh : String) (provider : String) (providerOk : Bool) :
    StyleOutcome × DB :=
  stylePostCore now provider providerOk (enforce db1 now user cookie fresh)

/-- Endpoint `/style-image` (main.py lines 856-973).  `provider` is `AI_PROVIDER`;
`providerOk` tells whether the Stability call returns bytes or raises
(the mock provider never calls out).  The upload is written to the
uploads directory before enforcement runs. -/
def style_image (db : DB) (now : Nat) (user : Option Nat) (cookie : Option String)
    (fresh : String) (req : StyleReq) (provider : String) (providerOk : Bool) :
    StyleOutcome × DB :=
  if !(pyStartsWith (pyLower req.ctype) "image/") then (.badFile, db)
  else if 8 * 1024 * 1024 < req.size then (.badFile, db)
  else
    stylePost { db with uploads := db.uploads ++ [safeName now req.fname] }
      now user cookie fresh provider providerOk

/-! ### Sequences of ledger operations -/

/-- One invocation of an endpoint that touches entitlement state, with
its request data. -/
inductive Op where
  | styleOp (now : Nat) (user : Option Nat) (cookie : Option String)
      (fresh : String) (req : StyleReq) (provider : String) (providerOk : Bool)
  | creditsOp (now : Nat) (user : Option Nat) (cookie : Option String)
      (fresh : String)
  | verifyEmailOp (uid : Nat)
  | verifyOtpOp (uid : Nat)
  | registerOp (email : String) (freshUid : Nat)
  | googleCallbackOp (email : String) (emailVerified : Bool) (freshUid : Nat)
  | googleIdtokenOp (email : String) (freshUid : Nat)
  deriving Repr

/-- The state transition of one operation. -/
def applyOp (db : DB) : Op → DB
  | .styleOp now user cookie fresh req provider providerOk =>
      (style_image db now user cookie fresh req provider providerOk).2
  | .creditsOp now user cookie fresh => (creditsEP db now user cookie fresh).2
  | .verifyEmailOp uid => verify_email db uid
  | .verifyOtpOp uid => verify_otp db uid
  | .registerOp email freshUid => register db email freshUid
  | .googleCallbackOp email ev freshUid => google_callback db email ev freshUid
  | .googleIdtokenOp email freshUid => google_idtoken_login db email freshUid

/-- A sequence of operations, applied left to right. -/
def applyOps (db : DB) (ops : List Op) : DB := ops.foldl applyOp db

/-- Every credit balance in the state — each user's `free_credits` and
each guest's `credits` — is non-negative. -/
def NonNeg (db : DB) : Prop :=
  (∀ p ∈ db.users, 0 ≤ p.2.free_credits) ∧ (∀ p ∈ db.guests, 0 ≤ p.2.credits)

/-! ### Concrete states used to exercise the theorems -/

/-- A well-formed image upload request. -/
def reqW : StyleReq := { ctype := "image/png", size := 100, fname := "a.png" }

/-- A state holding one fresh guest. -/
def guestDBW : DB :=
  { users := [], guests := [("g", { credits := 2, last_seen := 0 })],
    logs := [], uploads := [] }

/-- A verified user with 5 prepaid credits. -/
def userPrepaidW : UserRec :=
  { email := "e@x", is_verified := true, free_credits := 5,
    verify_bonus_claimed := true }

/-- A verified user with an exhausted prepaid balance. -/
def userQuotaW : UserRec :=
  { email := "e@x", is_verified := true, free_credits := 0,
    verify_bonus_claimed := true }

/-- Two usage events of user 1 inside the window of `now = 100`. -/
def twoLogsW : List GenLog :=
  [{ user_id := some 1, guest_id := none, created_at := 40 },
   { user_id := some 1, guest_id := none, created_at := 50 }]

def dbPrepaidW : DB := { users := [(1, userPrepaidW)], guests := [], logs := twoLogsW, uploads := [] }

def dbQuotaW : DB := { users := [(1, userQuotaW)], guests := [], logs := twoLogsW, uploads := [] }

/-- User 1 at the window boundary of `now = 86400`: events at times 0 and 1. -/
def dbBoundaryW : DB :=
  { users := [(1, userQuotaW)], guests := [],
    logs := [{ user_id := some 1, guest_id := none, created_at := 0 },
             { user_id := some 1, guest_id := none, created_at := 1 }],
    uploads := [] }

def dbEmptyW : DB := { users := [], guests := [], logs := [], uploads := [] }

/-! ### Association-list lemmas -/

theorem lookupA_setA_self {κ α : Type} [BEq κ] [LawfulBEq κ]
    (l : List (κ × α)) (k : κ) (v : α) : lookupA (setA l k v) k = some v := by
  induction l with
  | nil => simp [setA, lookupA]
  | cons p rest ih =>
      obtain ⟨k0, v0⟩ := p
      by_cases h : k0 = k
      · subst h; simp [setA, lookupA]
      · have hb : (k0 == k) = false := beq_eq_false_iff_ne.mpr h
        simp [setA, lookupA, hb, ih]

theorem lookupA_setA_ne {κ α : Type} [BEq κ] [LawfulBEq κ]
    (l : List (κ × α)) (k k' : κ) (v : α) (h : k' ≠ k) :
    lookupA (setA l k v) k' = lookupA l k' := by
  induction l with
  | nil => simp [setA, lookupA, beq_eq_false_iff_ne.mpr (fun e => h e.symm)]
  | cons p rest ih =>
      obtain ⟨k0, v0⟩ := p
      by_cases h0 : k0 = k
      · subst h0
        simp [setA, lookupA, beq_eq_false_iff_ne.mpr (fun e => h e.symm)]
      · have hb : (k0 == k) = false := beq_eq_false_iff_ne.mpr h0
        simp only [setA, hb, if_false, lookupA]
        by_cases h1 : k0 = k'
        · subst h1; simp [lookupA]
        · simp [beq_eq_false_iff_ne.mpr h1, ih]

theorem setA_values {κ α : Type} [BEq κ] (P : α → Prop)
    (l : List (κ × α)) (k : κ) (v : α)
    (hl : ∀ p ∈ l, P p.2) (hv : P v) : ∀ p ∈ setA l k v, P p.2 := by
  induction l with
  | nil => simpa [setA] using hv
  | cons q rest ih =>
      obtain ⟨k0, v0⟩ := q
      by_cases h : (k0 == k) = true
      · simp only [setA, h, if_true]
        intro p hp
        rcases List.mem_cons.mp hp with h1 | h1
        · subst h1; exact hv
        · exact hl p (List.mem_cons_of_mem _ h1)
      · simp only [setA, h, if_false]
        intro p hp
        rcases List.mem_cons.mp hp with h1 | h1
        · subst h1; exact hl _ (List.mem_cons_self _ _)
        · exact ih (fun q hq => hl q (List.mem_cons_of_mem _ hq)) p h1

theorem lookupA_P {κ α : Type} [BEq κ] (P : α → Prop)
    (l : List (κ × α)) (k : κ) (v : α)
    (hl : ∀ p ∈ l, P p.2) (h : lookupA l k = some v) : P v := by
  induction l with
  | nil => simp [lookupA] at h
  | cons q rest ih =>
      obtain ⟨k0, v0⟩ := q
      by_cases h0 : (k0 == k) = true
      · simp only [lookupA, h0, if_true, Option.some.injEq] at h
        subst h; exact hl _ (List.mem_cons_self _ _)
      · simp only [lookupA, h0, if_false] at h
        exact ih (fun q hq => hl q (List.mem_cons_of_mem _ hq)) h

/-! ### Small frame facts about the state operations -/

@[simp] theorem setUser_guests (db : DB) (uid : Nat) (u : UserRec) :
    (setUser db uid u).guests = db.guests := rfl

@[simp] theorem setUser_logs (db : DB) (uid : Nat) (u : UserRec) :
    (setUser db uid u).logs = db.logs := rfl

@[simp] theorem setUser_uploads (db : DB) (uid : Nat) (u : UserRec) :
    (setUser db uid u).uploads = db.uploads := rfl

@[simp] theorem setGuest_users (db : DB) (gid : String) (g : GuestRec) :
    (setGuest db gid g).users = db.users := rfl

@[simp] theorem setGuest_logs (db : DB) (gid : String) (g : GuestRec) :
    (setGuest db gid g).logs = db.logs := rfl

@[simp] theorem setGuest_uploads (db : DB) (gid : String) (g : GuestRec) :
    (setGuest db gid g).uploads = db.uploads := rfl

@[simp] theorem log_generation_db_users (db : DB) (now : Nat) (a : Option Nat)
    (b : Option String) : (log_generation_db db now a b).users = db.users := rfl

@[simp] theorem log_generation_db_guests (db : DB) (now : Nat) (a : Option Nat)
    (b : Option String) : (log_generation_db db now a b).guests = db.guests := rfl

@[simp] theorem log_generation_db_uploads (db : DB) (now : Nat) (a : Option Nat)
    (b : Option String) : (log_generation_db db now a b).uploads = db.uploads := rfl

@[simp] theorem log_generation_db_logs (db : DB) (now : Nat) (a : Option Nat)
    (b : Option String) :
    (log_generation_db db now a b).logs
      = db.logs ++ [{ user_id := a, guest_id := b, created_at := now }] := rfl

@[simp] theorem lookupUser_setUser_self (db : DB) (uid : Nat) (u : UserRec) :
    lookupUser (setUser db uid u) uid = some u :=
  lookupA_setA_self _ _ _

@[simp] theorem lookupGuest_setGuest_self (db : DB) (gid : String) (g : GuestRec) :
    lookupGuest (setGuest db gid g) gid = some g :=
  lookupA_setA_self _ _ _

theorem lookupUser_setUser_ne (db : DB) (uid uid' : Nat) (u : UserRec)
    (h : uid' ≠ uid) : lookupUser (setUser db uid u) uid' = lookupUser db uid' :=
  lookupA_setA_ne _ _ _ _ h

theorem lookupGuest_setGuest_ne (db : DB) (gid gid' : String) (g : GuestRec)
    (h : gid' ≠ gid) : lookupGuest (setGuest db gid g) gid' = lookupGuest db gid' :=
  lookupA_setA_ne _ _ _ _ h

/-- Reads of the tables ignore the `uploads` component. -/
@[simp] theorem lookupUser_uploads (db : DB) (x : List String) (uid : Nat) :
    lookupUser { db with uploads := x } uid = lookupUser db uid := rfl

@[simp] theorem lookupGuest_uploads (db : DB) (x : List String) (gid : String) :
    lookupGuest { db with uploads := x } gid = lookupGuest db gid := rfl

@[simp] theorem count_last_24h_uploads (db : DB) (x : List String) (now : Nat)
    (a : Option Nat) (b : Option String) :
    count_last_24h { db with uploads := x } now a b = count_last_24h db now a b := rfl

@[simp] theorem next_available_ts_uploads (db : DB) (x : List String) (now uid : Nat) :
    next_available_ts { db with uploads := x } now uid = next_available_ts db now uid := rfl

/-! ### Lemmas about the enforcement section -/

/-- Function `get_or_create_guest` when the guest row is absent: a row with
`credits = 2` is created. -/
theorem get_or_create_guest_of_none (db : DB) (now : Nat) (cookie : Option String)
    (fresh : String) (h : lookupGuest db (resolveGid cookie fresh) = none) :
    get_or_create_guest db now cookie fresh =
      (resolveGid cookie fresh, { credits := 2, last_seen := now },
       setGuest db (resolveGid cookie fresh) { credits := 2, last_seen := now }) := by
  unfold get_or_create_guest
  rw [h]

/-- Function `get_or_create_guest` when the guest row exists: only `last_seen` is
refreshed. -/
theorem get_or_create_guest_of_some (db : DB) (now : Nat) (cookie : Option String)
    (fresh : String) (g : GuestRec)
    (h : lookupGuest db (resolveGid cookie fresh) = some g) :
    get_or_create_guest db now cookie fresh =
      (resolveGid cookie fresh, { g with last_seen := now },
       setGuest db (resolveGid cookie fresh) { g with last_seen := now }) := by
  unfold get_or_create_guest
  rw [h]

theorem get_or_create_guest_fst (db : DB) (now : Nat) (cookie : Option String)
    (fresh : String) :
    (get_or_create_guest db now cookie fresh).1 = resolveGid cookie fresh := by
  unfold get_or_create_guest
  cases lookupGuest db (resolveGid cookie fresh) <;> rfl

theorem get_or_create_guest_frame (db : DB) (now : Nat) (cookie : Option String)
    (fresh : String) :
    (get_or_create_guest db now cookie fresh).2.2.users = db.users ∧
    (get_or_create_guest db now cookie fresh).2.2.logs = db.logs ∧
    (get_or_create_guest db now cookie fresh).2.2.uploads = db.uploads := by
  cases h : lookupGuest db (resolveGid cookie fresh) with
  | none => rw [get_or_create_guest_of_none db now cookie fresh h]; exact ⟨rfl, rfl, rfl⟩
  | some g => rw [get_or_create_guest_of_some db now cookie fresh g h]; exact ⟨rfl, rfl, rfl⟩

theorem enforce_frame (db : DB) (now : Nat) (user : Option Nat)
    (cookie : Option String) (fresh : String) :
    (enforce db now user cookie fresh).dbOf.logs = db.logs ∧
    (enforce db now user cookie fresh).dbOf.uploads = db.uploads := by
  cases user with
  | some uid =>
      simp only [enforce]
      cases h : lookupUser db uid with
      | none => exact ⟨rfl, rfl⟩
      | some u =>
          simp only [userDebitCheck]
          by_cases hv : (u.is_verified && decide (0 < u.free_credits)) = true
          · rw [if_pos hv]; exact ⟨rfl, rfl⟩
          · rw [if_neg hv]
            by_cases hq : DAILY_FREE_LIMIT ≤ count_last_24h db now (some uid) none
            · rw [if_pos hq]; exact ⟨rfl, rfl⟩
            · rw [if_neg hq]; exact ⟨rfl, rfl⟩
  | none =>
      simp only [enforce]
      obtain ⟨hus, hl, hup⟩ := get_or_create_guest_frame db now cookie fresh
      cases hg : lookupGuest (get_or_create_guest db now cookie fresh).2.2
          (get_or_create_guest db now cookie fresh).1 with
      | none => exact ⟨hl, hup⟩
      | some gg =>
          simp only [guestDebitCheck]
          by_cases hc : gg.credits ≤ 0
          · rw [if_pos hc]; exact ⟨hl, hup⟩
          · rw [if_neg hc]; exact ⟨hl, hup⟩

/-- On every `proceed` outcome the acting identity is the request's
identity: the logged-in user id, or the resolved guest cookie id. -/
theorem enforce_proceed_who (db : DB) (now : Nat) (user : Option Nat)
    (cookie : Option String) (fresh : String) (who : Who) (bucket : String)
    (db' : DB)
    (h : enforce db now user cookie fresh = .proceed who bucket db') :
    (∀ uid, user = some uid → who = .user uid) ∧
    (user = none → who = .guest (resolveGid cookie fresh)) := by
  cases user with
  | some uid =>
      simp only [enforce] at h
      constructor
      case right => intro h'; cases h'
      intro uid' h'
      injection h' with he
      subst he
      cases hu : lookupUser db uid with
      | none => rw [hu] at h; cases h
      | some u =>
          rw [hu] at h
          simp only [userDebitCheck] at h
          by_cases hv : (u.is_verified && decide (0 < u.free_credits)) = true
          · rw [if_pos hv] at h; cases h; rfl
          · rw [if_neg hv] at h
            by_cases hq : DAILY_FREE_LIMIT ≤ count_last_24h db now (some uid) none
            · rw [if_pos hq] at h; cases h
            · rw [if_neg hq] at h; cases h; rfl
  | none =>
      simp only [enforce] at h
      constructor
      case left => intro uid' h'; cases h'
      intro _
      cases hg : lookupGuest (get_or_create_guest db now cookie fresh).2.2
          (get_or_create_guest db now cookie fresh).1 with
      | none => rw [hg] at h; cases h
      | some gg =>
          rw [hg] at h
          simp only [guestDebitCheck] at h
          by_cases hc : gg.credits ≤ 0
          · rw [if_pos hc] at h; cases h
          · rw [if_neg hc] at h
            cases h
            rw [get_or_create_guest_fst]

/-- With a valid upload, `/style-image` is the post-upload pipeline run on
the state with the file stored. -/
theorem style_image_valid (db : DB) (now : Nat) (user : Option Nat)
    (cookie : Option String) (fresh : String) (req : StyleReq) (provider : String)
    (providerOk : Bool) (hct : pyStartsWith (pyLower req.ctype) "image/" = true)
    (hsz : req.size ≤ 8 * 1024 * 1024) :
    style_image db now user cookie fresh req provider providerOk =
      stylePost { db with uploads := db.uploads ++ [safeName now req.fname] }
        now user cookie fresh provider providerOk := by
  unfold style_image
  rw [hct]
  rw [if_neg (by simp)]
  rw [if_neg (Nat.not_lt.mpr hsz)]

/-- A denial response leaves every table unchanged apart from the guest
row's `last_seen` refresh: users, logs and uploads are untouched, and
every guest's credit balance is preserved. -/
theorem enforce_denied_frame (db : DB) (now : Nat) (user : Option Nat)
    (cookie : Option String) (fresh : String) (d : Decision) (db' : DB)
    (h : enforce db now user cookie fresh = .denied d db') :
    db'.users = db.users ∧ db'.logs = db.logs ∧ db'.uploads = db.uploads ∧
    (∀ gid g, lookupGuest db gid = some g →
       ∃ g', lookupGuest db' gid = some g' ∧ g'.credits = g.credits) := by
  cases user with
  | some uid =>
      simp only [enforce] at h
      cases hu : lookupUser db uid with
      | none => rw [hu] at h; cases h
      | some u =>
          rw [hu] at h
          simp only [userDebitCheck] at h
          by_cases hv : (u.is_verified && decide (0 < u.free_credits)) = true
          · rw [if_pos hv] at h; cases h
          · rw [if_neg hv] at h
            by_cases hq : DAILY_FREE_LIMIT ≤ count_last_24h db now (some uid) none
            · rw [if_pos hq] at h
              injection h with h1 h2
              subst h2
              exact ⟨rfl, rfl, rfl, fun gid g hg => ⟨g, hg, rfl⟩⟩
            · rw [if_neg hq] at h; cases h
  | none =>
      simp only [enforce] at h
      cases hlk : lookupGuest db (resolveGid cookie fresh) with
      | none =>
          rw [get_or_create_guest_of_none db now cookie fresh hlk] at h
          rw [lookupGuest_setGuest_self] at h
          simp [guestDebitCheck] at h
      | some g =>
          rw [get_or_create_guest_of_some db now cookie fresh g hlk] at h
          rw [lookupGuest_setGuest_self] at h
          simp only [guestDebitCheck] at h
          by_cases hc : g.credits ≤ 0
          · rw [if_pos hc] at h
            injection h with h1 h2
            subst h2
            refine ⟨rfl, rfl, rfl, fun gid g' hg' => ?_⟩
            by_cases he : gid = resolveGid cookie fresh
            · subst he
              rw [hlk] at hg'
              injection hg' with hg'
              subst hg'
              exact ⟨{ g with last_seen := now }, lookupGuest_setGuest_self _ _ _, rfl⟩
            · exact ⟨g', by rw [lookupGuest_setGuest_ne _ _ _ _ he, hg'], rfl⟩
          · rw [if_neg hc] at h; cases h

/-- A denial response from `/style-image` is exactly a denial from the
enforcement section run on the state with the upload stored. -/
theorem stylePost_denied_inv (db1 : DB) (now : Nat) (user : Option Nat)
    (cookie : Option String) (fresh : String) (provider : String)
    (providerOk : Bool) (d : Decision)
    (h : (stylePost db1 now user cookie fresh provider providerOk).1 = .denied d) :
    enforce db1 now user cookie fresh
      = .denied d (stylePost db1 now user cookie fresh provider providerOk).2 := by
  cases he : enforce db1 now user cookie fresh with
  | denied d' db2 =>
      unfold stylePost at h ⊢
      rw [he] at h ⊢
      simp only [stylePostCore] at h ⊢
      cases h
      rfl
  | error db2 =>
      unfold stylePost at h
      rw [he] at h
      simp only [stylePostCore] at h
      cases h
  | proceed who bucket db2 =>
      unfold stylePost at h
      rw [he] at h
      simp only [stylePostCore] at h
      unfold styleGen at h
      by_cases hm : (provider == "mock") = true
      · rw [if_pos hm] at h; cases h
      · rw [if_neg hm] at h
        by_cases hs : (provider == "stability") = true
        · rw [if_pos hs] at h; cases h
        · rw [if_neg hs] at h; cases h

/-- A permitted `/style-image` call appends exactly one usage-log row for
the acting identity at the current timestamp (provider known). -/
theorem stylePost_ok_inv (db1 : DB) (now : Nat) (user : Option Nat)
    (cookie : Option String) (fresh : String) (provider : String)
    (providerOk : Bool) (b : String)
    (hp : provider = "mock" ∨ provider = "stability")
    (h : (stylePost db1 now user cookie fresh provider providerOk).1 = .ok b) :
    ∃ who db2,
      enforce db1 now user cookie fresh = .proceed who b db2 ∧
      (stylePost db1 now user cookie fresh provider providerOk).2.logs
        = db2.logs ++ [{ user_id := whoUserId who, guest_id := whoGuestId who,
                         created_at := now }] := by
  cases he : enforce db1 now user cookie fresh with
  | denied d' db2 =>
      unfold stylePost at h
      rw [he] at h
      simp only [stylePostCore] at h
      cases h
  | error db2 =>
      unfold stylePost at h
      rw [he] at h
      simp only [stylePostCore] at h
      cases h
  | proceed who bucket db2 =>
      unfold stylePost at h ⊢
      rw [he] at h ⊢
      simp only [stylePostCore] at h ⊢
      unfold styleGen at h ⊢
      rcases hp with hp | hp <;> subst hp
      · rw [if_pos (by decide)] at h ⊢
        cases h
        exact ⟨who, db2, rfl, by simp⟩
      · rw [if_neg (by decide), if_pos (by decide)] at h ⊢
        cases h
        refine ⟨who, db2, rfl, ?_⟩
        cases providerOk <;> simp

/-! ### The rolling-window retry computation -/

/-- For a non-zero user id the two row filters used by `count_last_24h`
and `next_available_ts` agree. -/
theorem matchRow_eq_matchUserRow (now uid : Nat) (huid : uid ≠ 0) (l : GenLog) :
    matchRow now (some uid) none l = matchUserRow now uid l := by
  have h0 : (uid != 0) = true := by simpa using huid
  simp only [matchRow, matchUserRow, truthyNat, truthyStr, h0]
  simp [Bool.and_comm]

theorem count_eq_filter_user (db : DB) (now uid : Nat) (huid : uid ≠ 0) :
    count_last_24h db now (some uid) none
      = (db.logs.filter (matchUserRow now uid)).length := by
  unfold count_last_24h
  rw [List.filter_congr (fun l _ => matchRow_eq_matchUserRow now uid huid l)]

/-- When a non-zero user has at least `DAILY_FREE_LIMIT` usage events in
the trailing window, `next_available_ts` returns `t_k + 24h` where `t_k`
is the timestamp of the `DAILY_FREE_LIMIT`-th most recent in-window
event: a real event of this user, inside the window, such that at least
`DAILY_FREE_LIMIT` in-window events are at or after it and fewer than
`DAILY_FREE_LIMIT` are strictly after it. -/
theorem denial_next_ts (db : DB) (now uid : Nat) (huid : uid ≠ 0)
    (h : DAILY_FREE_LIMIT ≤ count_last_24h db now (some uid) none) :
    ∃ tk : Nat,
      next_available_ts db now uid = some (tk + WINDOW) ∧
      (∃ l ∈ db.logs, l.user_id = some uid ∧ now - WINDOW ≤ l.created_at ∧
        l.created_at = tk) ∧
      DAILY_FREE_LIMIT ≤
        ((db.logs.filter (matchUserRow now uid)).filter
          (fun l => decide (tk ≤ l.created_at))).length ∧
      ((db.logs.filter (matchUserRow now uid)).filter
          (fun l => decide (tk < l.created_at))).length < DAILY_FREE_LIMIT := by
  rw [count_eq_filter_user db now uid huid] at h
  have hlen : DAILY_FREE_LIMIT ≤ (sortDesc (db.logs.filter (matchUserRow now uid))).length := by
    unfold sortDesc
    rw [List.length_insertionSort]
    exact h
  obtain ⟨a, b, S, hS⟩ : ∃ a b S,
      sortDesc (db.logs.filter (matchUserRow now uid)) = a :: b :: S := by
    cases hC : sortDesc (db.logs.filter (matchUserRow now uid)) with
    | nil => rw [hC] at hlen; simp [DAILY_FREE_LIMIT] at hlen
    | cons a T =>
        cases T with
        | nil => rw [hC] at hlen; simp [DAILY_FREE_LIMIT] at hlen
        | cons b S => exact ⟨a, b, S, rfl⟩
  have hsorted : List.Sorted descGE (sortDesc (db.logs.filter (matchUserRow now uid))) :=
    List.sorted_insertionSort descGE _
  rw [hS] at hsorted
  have hab : descGE a b := (List.sorted_cons.mp hsorted).1 b (List.mem_cons_self _ _)
  have hbS : ∀ x ∈ S, descGE b x :=
    (List.sorted_cons.mp (List.sorted_cons.mp hsorted).2).1
  have hperm : (sortDesc (db.logs.filter (matchUserRow now uid))).Perm
      (db.logs.filter (matchUserRow now uid)) := List.perm_insertionSort descGE _
  have hbmem : b ∈ db.logs.filter (matchUserRow now uid) := by
    rw [← hperm.mem_iff, hS]
    exact List.mem_cons_of_mem _ (List.mem_cons_self _ _)
  obtain ⟨hbl, hbm⟩ := List.mem_filter.mp hbmem
  have hbm' : b.user_id = some uid ∧ now - WINDOW ≤ b.created_at := by
    simpa [matchUserRow] using hbm
  refine ⟨b.created_at, ?_, ⟨b, hbl, hbm'.1, hbm'.2, rfl⟩, ?_, ?_⟩
  · unfold next_available_ts
    rw [if_neg (Nat.not_lt.mpr hlen), hS]
    simp [DAILY_FREE_LIMIT]
  · have hcount : ((db.logs.filter (matchUserRow now uid)).filter
        (fun l => decide (b.created_at ≤ l.created_at))).length
        = ((a :: b :: S).filter (fun l => decide (b.created_at ≤ l.created_at))).length := by
      rw [← List.countP_eq_length_filter, ← List.countP_eq_length_filter]
      exact (hperm.countP_eq _).symm.trans (by rw [hS])
    rw [hcount]
    have ha : (decide (b.created_at ≤ a.created_at)) = true := decide_eq_true hab
    have hb : (decide (b.created_at ≤ b.created_at)) = true := decide_eq_true le_rfl
    simp only [List.filter_cons, ha, hb, if_true, List.length_cons]
    simp [DAILY_FREE_LIMIT]
  · have hcount : ((db.logs.filter (matchUserRow now uid)).filter
        (fun l => decide (b.created_at < l.created_at))).length
        = ((a :: b :: S).filter (fun l => decide (b.created_at < l.created_at))).length := by
      rw [← List.countP_eq_length_filter, ← List.countP_eq_length_filter]
      exact (hperm.countP_eq _).symm.trans (by rw [hS])
    rw [hcount]
    have hSnil : S.filter (fun l => decide (b.created_at < l.created_at)) = [] :=
      List.filter_eq_nil_iff.mpr (fun x hx => by
        simpa using Nat.not_lt.mpr (hbS x hx))
    have hbno : (decide (b.created_at < b.created_at)) = false := by
      simp
    simp only [List.filter_cons, hbno, hSnil, if_false]
    by_cases hag : (decide (b.created_at < a.created_at)) = true
    · rw [if_pos hag]; simp [DAILY_FREE_LIMIT]
    · rw [if_neg hag]; simp [DAILY_FREE_LIMIT]

/-! ### Branch characterizations of the enforcement section -/

theorem setA_setA {κ α : Type} [BEq κ] [LawfulBEq κ]
    (l : List (κ × α)) (k : κ) (v v' : α) :
    setA (setA l k v) k v' = setA l k v' := by
  induction l with
  | nil => simp [setA]
  | cons p rest ih =>
      obtain ⟨k0, v0⟩ := p
      by_cases h : (k0 == k) = true
      · simp [setA, h]
      · simp [setA, h, ih]

theorem setGuest_setGuest (db : DB) (gid : String) (g g' : GuestRec) :
    setGuest (setGuest db gid g) gid g' = setGuest db gid g' := by
  unfold setGuest
  simp [setA_setA]

/-- A guest with a positive balance is debited one credit and allowed. -/
theorem enforce_guest_pos (db : DB) (now : Nat) (cookie : Option String)
    (fresh : String) (g : GuestRec)
    (hg : lookupGuest db (resolveGid cookie fresh) = some g)
    (hpos : 0 < g.credits) :
    enforce db now none cookie fresh =
      .proceed (.guest (resolveGid cookie fresh)) "guest"
        (setGuest db (resolveGid cookie fresh)
          { credits := g.credits - 1, last_seen := now }) := by
  simp only [enforce]
  rw [get_or_create_guest_of_some db now cookie fresh g hg]
  rw [lookupGuest_setGuest_self]
  simp only [guestDebitCheck]
  rw [if_neg (show ¬ ({ g with last_seen := now } : GuestRec).credits ≤ 0 by
    show ¬ g.credits ≤ 0; omega)]
  rw [setGuest_setGuest]

/-- A guest at zero (or below) is denied with the register call-to-action,
whatever the usage log holds. -/
theorem enforce_guest_zero (db : DB) (now : Nat) (cookie : Option String)
    (fresh : String) (g : GuestRec)
    (hg : lookupGuest db (resolveGid cookie fresh) = some g)
    (hz : g.credits ≤ 0) :
    enforce db now none cookie fresh =
      .denied (.deniedGuest "register")
        (setGuest db (resolveGid cookie fresh) { g with last_seen := now }) := by
  simp only [enforce]
  rw [get_or_create_guest_of_some db now cookie fresh g hg]
  rw [lookupGuest_setGuest_self]
  simp only [guestDebitCheck]
  rw [if_pos (show ({ g with last_seen := now } : GuestRec).credits ≤ 0 from hz)]

/-- A verified user with a positive prepaid balance is debited one credit
and allowed through the prepaid bucket — the rolling window is not
consulted. -/
theorem enforce_user_prepaid (db : DB) (now : Nat) (uid : Nat) (u : UserRec)
    (cookie : Option String) (fresh : String)
    (hu : lookupUser db uid = some u) (hv : u.is_verified = true)
    (hpos : 0 < u.free_credits) :
    enforce db now (some uid) cookie fresh =
      .proceed (.user uid) "prepaid"
        (setUser db uid { u with free_credits := u.free_credits - 1 }) := by
  simp only [enforce]
  rw [hu]
  simp only [userDebitCheck]
  rw [if_pos (by simp [hv, hpos])]

/-- An unverified user, or a verified user with no prepaid credits, falls
to the rolling window: denial when the window count has reached the
limit. -/
theorem enforce_user_quota_denied (db : DB) (now : Nat) (uid : Nat) (u : UserRec)
    (cookie : Option String) (fresh : String)
    (hu : lookupUser db uid = some u)
    (hnv : u.is_verified = false ∨ u.free_credits ≤ 0)
    (hq : DAILY_FREE_LIMIT ≤ count_last_24h db now (some uid) none) :
    enforce db now (some uid) cookie fresh =
      .denied (.deniedDaily (count_last_24h db now (some uid) none)
        DAILY_FREE_LIMIT (retryWait (next_available_ts db now uid) now)) db := by
  simp only [enforce]
  rw [hu]
  simp only [userDebitCheck]
  rw [if_neg (by rcases hnv with hnv | hnv <;> simp [hnv])]
  rw [if_pos hq]

/-- The quota branch allows the request, with no row update at all, when
the window count is below the limit. -/
theorem enforce_user_quota_allowed (db : DB) (now : Nat) (uid : Nat) (u : UserRec)
    (cookie : Option String) (fresh : String)
    (hu : lookupUser db uid = some u)
    (hnv : u.is_verified = false ∨ u.free_credits ≤ 0)
    (hq : count_last_24h db now (some uid) none < DAILY_FREE_LIMIT) :
    enforce db now (some uid) cookie fresh =
      .proceed (.user uid) "daily_quota" db := by
  simp only [enforce]
  rw [hu]
  simp only [userDebitCheck]
  rw [if_neg (by rcases hnv with hnv | hnv <;> simp [hnv])]
  rw [if_neg (Nat.not_le.mpr hq)]

/-- Inversion: a logged-in user's denial is exactly the daily-limit
denial, computed from the current log state, with the state unchanged. -/
theorem enforce_user_denied_inv (db : DB) (now : Nat) (uid : Nat)
    (cookie : Option String) (fresh : String) (d : Decision) (db' : DB)
    (h : enforce db now (some uid) cookie fresh = .denied d db') :
    ∃ u, lookupUser db uid = some u ∧
      (u.is_verified = false ∨ u.free_credits ≤ 0) ∧
      DAILY_FREE_LIMIT ≤ count_last_24h db now (some uid) none ∧
      d = .deniedDaily (count_last_24h db now (some uid) none)
            DAILY_FREE_LIMIT (retryWait (next_available_ts db now uid) now) ∧
      db' = db := by
  simp only [enforce] at h
  cases hu : lookupUser db uid with
  | none => rw [hu] at h; cases h
  | some u =>
      rw [hu] at h
      simp only [userDebitCheck] at h
      by_cases hv : (u.is_verified && decide (0 < u.free_credits)) = true
      · rw [if_pos hv] at h; cases h
      · rw [if_neg hv] at h
        by_cases hq : DAILY_FREE_LIMIT ≤ count_last_24h db now (some uid) none
        · rw [if_pos hq] at h
          injection h with h1 h2
          refine ⟨u, rfl, ?_, hq, h1.symm, h2.symm⟩
          cases hb : u.is_verified with
          | false => exact Or.inl rfl
          | true =>
              refine Or.inr ?_
              by_cases hc : 0 < u.free_credits
              · exact absurd (by simp [hb, hc]) hv
              · omega
        · rw [if_neg hq] at h; cases h

@[simp] theorem lookupGuest_log (db : DB) (now : Nat) (a : Option Nat)
    (b : Option String) (gid : String) :
    lookupGuest (log_generation_db db now a b) gid = lookupGuest db gid := rfl

@[simp] theorem lookupUser_log (db : DB) (now : Nat) (a : Option Nat)
    (b : Option String) (uid : Nat) :
    lookupUser (log_generation_db db now a b) uid = lookupUser db uid := rfl

@[simp] theorem lookupUser_setGuest (db : DB) (gid : String) (g : GuestRec) (uid : Nat) :
    lookupUser (setGuest db gid g) uid = lookupUser db uid := rfl

@[simp] theorem lookupGuest_setUser (db : DB) (uid : Nat) (u : UserRec) (gid : String) :
    lookupGuest (setUser db uid u) gid = lookupGuest db gid := rfl

theorem lookupUser_eq_of_users (X Y : DB) (h : X.users = Y.users) (uid : Nat) :
    lookupUser X uid = lookupUser Y uid := by
  unfold lookupUser
  rw [h]

theorem lookupGuest_eq_of_guests (X Y : DB) (h : X.guests = Y.guests) (gid : String) :
    lookupGuest X gid = lookupGuest Y gid := by
  unfold lookupGuest
  rw [h]

/-- A permitted request with a known provider produces the 200 payload
tagged with the authorizing bucket, and the only further state change is
the appended usage-log row. -/
theorem style_proceed_outcome (db1 : DB) (now : Nat) (user : Option Nat)
    (cookie : Option String) (fresh : String) (provider : String) (providerOk : Bool)
    (who : Who) (b : String) (db2 : DB)
    (hp : provider = "mock" ∨ provider = "stability")
    (henf : enforce db1 now user cookie fresh = .proceed who b db2) :
    (stylePost db1 now user cookie fresh provider providerOk).1 = .ok b ∧
    (stylePost db1 now user cookie fresh provider providerOk).2.users = db2.users ∧
    (stylePost db1 now user cookie fresh provider providerOk).2.guests = db2.guests ∧
    (stylePost db1 now user cookie fresh provider providerOk).2.logs
      = db2.logs ++ [{ user_id := whoUserId who, guest_id := whoGuestId who,
                       created_at := now }] := by
  unfold stylePost
  rw [henf]
  simp only [stylePostCore]
  unfold styleGen
  rcases hp with hp | hp <;> subst hp
  · rw [if_pos (by decide)]
    exact ⟨rfl, rfl, rfl, rfl⟩
  · rw [if_neg (by decide), if_pos (by decide)]
    cases providerOk <;> exact ⟨rfl, rfl, rfl, rfl⟩

/-! ### The claims -/

/-- C1: the spec says the +2 verification bonus is granted at most once
per user across every verification path, gated by the one-way
`verify_bonus_claimed` flag.  The code violates this: `google_idtoken_login`
creates a verified user with `free_credits = 2` but leaves
`verify_bonus_claimed` at its column default `False`, so a subsequent
`google_callback` with a verified email grants +2 again — the account
ends at `free_credits = 4` with the bonus granted twice.  Every other
path sets the flag when it grants, so the spec is the intent and the
missing flag in `google_idtoken_login` is the slip. -/
theorem C1_double_bonus_eval :
    lookupUser
      (google_callback
        (google_idtoken_login { users := [], guests := [], logs := [], uploads := [] }
          "alice@example.com" 1)
        "alice@example.com" true 2) 1
      = some { email := "alice@example.com", is_verified := true,
               free_credits := 4, verify_bonus_claimed := true } := by
  decide

/-- C2: a fresh guest (credits = 2) gets exactly two permitted
`/style-image` calls, each debiting one credit; the third is denied with
the register call-to-action; and a guest at zero credits is denied for
every provider, regardless of the usage-log contents. -/
theorem C2_guest_two_then_denied (db : DB) (now1 now2 now3 : Nat)
    (gid fresh : String) (hgid : gid ≠ "") (g : GuestRec)
    (hg : lookupGuest db gid = some g) (req : StyleReq)
    (hct : pyStartsWith (pyLower req.ctype) "image/" = true)
    (hsz : req.size ≤ 8 * 1024 * 1024) :
    (g.credits = 2 →
      ∃ db1 db2,
        style_image db now1 none (some gid) fresh req "mock" true = (.ok "guest", db1) ∧
        (lookupGuest db1 gid).map GuestRec.credits = some 1 ∧
        style_image db1 now2 none (some gid) fresh req "mock" true = (.ok "guest", db2) ∧
        (lookupGuest db2 gid).map GuestRec.credits = some 0 ∧
        (style_image db2 now3 none (some gid) fresh req "mock" true).1
          = .denied (.deniedGuest "register")) ∧
    (g.credits ≤ 0 → ∀ provider providerOk,
      (style_image db now1 none (some gid) fresh req provider providerOk).1
        = .denied (.deniedGuest "register")) := by
  have hres : ∀ s : String, resolveGid (some gid) s = gid := by
    intro s
    simp [resolveGid, hgid]
  have step : ∀ (dbx : DB) (nowx : Nat) (gx : GuestRec),
      lookupGuest dbx gid = some gx → 0 < gx.credits →
      ∃ dbx', style_image dbx nowx none (some gid) fresh req "mock" true
          = (.ok "guest", dbx') ∧
        lookupGuest dbx' gid = some { credits := gx.credits - 1, last_seen := nowx } := by
    intro dbx nowx gx hgx hpos
    rw [style_image_valid dbx nowx none (some gid) fresh req "mock" true hct hsz]
    have henf := enforce_guest_pos
      { dbx with uploads := dbx.uploads ++ [safeName nowx req.fname] } nowx
      (some gid) fresh gx (by rw [hres]; simpa using hgx) hpos
    rw [hres] at henf
    obtain ⟨h1, _, hgs, _⟩ := style_proceed_outcome _ nowx none (some gid) fresh
      "mock" true _ _ _ (Or.inl rfl) henf
    refine ⟨(stylePost { dbx with uploads := dbx.uploads ++ [safeName nowx req.fname] }
        nowx none (some gid) fresh "mock" true).2, ?_, ?_⟩
    · rw [← h1]
    · rw [lookupGuest_eq_of_guests _ _ hgs]
      exact lookupGuest_setGuest_self _ _ _
  have deny : ∀ (dbx : DB) (nowx : Nat) (gx : GuestRec) (provider : String)
      (providerOk : Bool), lookupGuest dbx gid = some gx → gx.credits ≤ 0 →
      (style_image dbx nowx none (some gid) fresh req provider providerOk).1
        = .denied (.deniedGuest "register") := by
    intro dbx nowx gx provider providerOk hgx hzx
    rw [style_image_valid dbx nowx none (some gid) fresh req provider providerOk hct hsz]
    have henf := enforce_guest_zero
      { dbx with uploads := dbx.uploads ++ [safeName nowx req.fname] } nowx
      (some gid) fresh gx (by rw [hres]; simpa using hgx) hzx
    unfold stylePost
    rw [henf]
    simp only [stylePostCore]
  constructor
  · intro h2
    obtain ⟨db1, h11, h12⟩ := step db now1 g hg (by omega)
    obtain ⟨db2, h21, h22⟩ := step db1 now2 _ h12
      (by show (0:Int) < g.credits - 1; omega)
    refine ⟨db1, db2, h11, ?_, h21, ?_, ?_⟩
    · rw [h12]; simp [h2]
    · rw [h22]; simp [h2]
    · exact deny db2 now3 _ "mock" true h22
        (by show g.credits - 1 - 1 ≤ (0:Int); omega)
  · intro hz provider providerOk
    exact deny db now1 g provider providerOk hg hz

/-- Witness for C2 at a concrete fresh guest. -/
theorem C2_guest_two_then_denied_witness :
    (style_image guestDBW 10 none (some "g") "f" reqW "mock" true).1 = .ok "guest" := by
  obtain ⟨db1, db2, h11, _, _, _, _⟩ :=
    (C2_guest_two_then_denied guestDBW 10 20 30 "g" "f" (by decide)
      { credits := 2, last_seen := 0 } (by decide) reqW (by decide) (by decide)).1
      (by decide)
  rw [h11]

/-- C5: a verified user with a positive prepaid balance is debited exactly
one credit and allowed through the prepaid bucket, before (and instead
of) any rolling-window consideration — the state `db`, and so the user's
trailing-24h count, is arbitrary; an unverified user is never routed to
the prepaid bucket and their row is left unchanged. -/
theorem C5_prepaid_before_quota (db : DB) (now : Nat) (uid : Nat) (u : UserRec)
    (cookie : Option String) (fresh : String)
    (hu : lookupUser db uid = some u) (req : StyleReq)
    (hct : pyStartsWith (pyLower req.ctype) "image/" = true)
    (hsz : req.size ≤ 8 * 1024 * 1024) (provider : String) (providerOk : Bool)
    (hp : provider = "mock" ∨ provider = "stability") :
    (u.is_verified = true → 0 < u.free_credits →
      (style_image db now (some uid) cookie fresh req provider providerOk).1
        = .ok "prepaid" ∧
      (lookupUser (style_image db now (some uid) cookie fresh req provider providerOk).2
        uid).map UserRec.free_credits = some (u.free_credits - 1)) ∧
    (u.is_verified = false →
      (style_image db now (some uid) cookie fresh req provider providerOk).1
        ≠ .ok "prepaid" ∧
      lookupUser (style_image db now (some uid) cookie fresh req provider providerOk).2
        uid = some u) := by
  rw [style_image_valid db now (some uid) cookie fresh req provider providerOk hct hsz]
  constructor
  · intro hv hpos
    have henf := enforce_user_prepaid
      { db with uploads := db.uploads ++ [safeName now req.fname] } now uid u
      cookie fresh (by simpa using hu) hv hpos
    obtain ⟨h1, hus, _, _⟩ := style_proceed_outcome _ now (some uid) cookie fresh
      provider providerOk _ _ _ hp henf
    refine ⟨h1, ?_⟩
    rw [lookupUser_eq_of_users _ _ hus, lookupUser_setUser_self]
    rfl
  · intro hv
    by_cases hq : DAILY_FREE_LIMIT ≤ count_last_24h
        { db with uploads := db.uploads ++ [safeName now req.fname] } now (some uid) none
    · have henf := enforce_user_quota_denied _ now uid u cookie fresh
        (by simpa using hu) (Or.inl hv) hq
      unfold stylePost
      rw [henf]
      simp only [stylePostCore]
      exact ⟨by simp, by simpa using hu⟩
    · have henf := enforce_user_quota_allowed _ now uid u cookie fresh
        (by simpa using hu) (Or.inl hv) (Nat.not_le.mp hq)
      obtain ⟨h1, hus, _, _⟩ := style_proceed_outcome _ now (some uid) cookie fresh
        provider providerOk _ _ _ hp henf
      constructor
      · rw [h1]; decide
      · rw [lookupUser_eq_of_users _ _ hus]; simpa using hu

/-- Witness for C5: a verified user with 5 prepaid credits is allowed via
the prepaid bucket even though their window count is already 2. -/
theorem C5_prepaid_before_quota_witness :
    (style_image dbPrepaidW 100 (some 1) none "f" reqW "mock" true).1 = .ok "prepaid" :=
  ((C5_prepaid_before_quota dbPrepaidW 100 1 userPrepaidW none "f" (by decide)
    reqW (by decide) (by decide) "mock" true (Or.inl rfl)).1 (by decide) (by decide)).1

/-- C3: a verified user with no prepaid credits is governed by the rolling
window: at a window count of exactly `DAILY_FREE_LIMIT` the request is
denied with `used = limit = DAILY_FREE_LIMIT`; below the limit it is
allowed via the daily-quota bucket with no counter decremented (the user
row and the guest table are unchanged). -/
theorem C3_daily_quota (db : DB) (now : Nat) (uid : Nat) (u : UserRec)
    (cookie : Option String) (fresh : String)
    (hu : lookupUser db uid = some u) (hver : u.is_verified = true)
    (hzero : u.free_credits = 0) (req : StyleReq)
    (hct : pyStartsWith (pyLower req.ctype) "image/" = true)
    (hsz : req.size ≤ 8 * 1024 * 1024) (provider : String) (providerOk : Bool) :
    (count_last_24h db now (some uid) none = DAILY_FREE_LIMIT →
      ∃ w, (style_image db now (some uid) cookie fresh req provider providerOk).1
        = .denied (.deniedDaily DAILY_FREE_LIMIT DAILY_FREE_LIMIT w)) ∧
    (count_last_24h db now (some uid) none < DAILY_FREE_LIMIT →
      (provider = "mock" ∨ provider = "stability") →
      (style_image db now (some uid) cookie fresh req provider providerOk).1
        = .ok "daily_quota" ∧
      lookupUser (style_image db now (some uid) cookie fresh req provider providerOk).2
        uid = some u ∧
      (style_image db now (some uid) cookie fresh req provider providerOk).2.guests
        = db.guests) := by
  rw [style_image_valid db now (some uid) cookie fresh req provider providerOk hct hsz]
  constructor
  · intro hc
    have hcc : count_last_24h { db with uploads := db.uploads ++ [safeName now req.fname] }
        now (some uid) none = DAILY_FREE_LIMIT := by simpa using hc
    have henf := enforce_user_quota_denied
      { db with uploads := db.uploads ++ [safeName now req.fname] } now uid u
      cookie fresh (by simpa using hu) (Or.inr (le_of_eq hzero)) (le_of_eq hcc.symm)
    unfold stylePost
    rw [henf]
    simp only [stylePostCore]
    exact ⟨_, by rw [hcc]⟩
  · intro hlt hp
    have henf := enforce_user_quota_allowed
      { db with uploads := db.uploads ++ [safeName now req.fname] } now uid u
      cookie fresh (by simpa using hu) (Or.inr (le_of_eq hzero)) (by simpa using hlt)
    obtain ⟨h1, hus, hgs, _⟩ := style_proceed_outcome _ now (some uid) cookie fresh
      provider providerOk _ _ _ hp henf
    exact ⟨h1, by rw [lookupUser_eq_of_users _ _ hus]; simpa using hu, by rw [hgs]⟩

/-- Witness for C3: with exactly 2 in-window events the user is denied
with used = limit = 2; the same user with 1 event is allowed via the
daily-quota bucket. -/
theorem C3_daily_quota_witness :
    ∃ w, (style_image dbQuotaW 100 (some 1) none "f" reqW "mock" true).1
      = .denied (.deniedDaily DAILY_FREE_LIMIT DAILY_FREE_LIMIT w) :=
  (C3_daily_quota dbQuotaW 100 1 userQuotaW none "f" (by decide) (by decide)
    (by decide) reqW (by decide) (by decide) "mock" true).1 (by decide)

theorem setGuest_preserves_credits (db : DB) (rgid : String) (v : GuestRec)
    (hv : ∀ g0, lookupGuest db rgid = some g0 → v.credits = g0.credits) :
    ∀ gid g, lookupGuest db gid = some g →
      ∃ g', lookupGuest (setGuest db rgid v) gid = some g' ∧ g'.credits = g.credits := by
  intro gid g hg
  by_cases he : gid = rgid
  · subst he
    exact ⟨v, lookupGuest_setGuest_self _ _ _, hv g hg⟩
  · exact ⟨g, by rw [lookupGuest_setGuest_ne _ _ _ _ he, hg], rfl⟩

/-- The endpoint reports a null `next_available_ts` exactly when the user
has fewer than `DAILY_FREE_LIMIT` usage events in the trailing window —
a condition independent of the prepaid balance, hence not the same as
"not currently blocked". -/
theorem next_available_none_iff (db : DB) (now uid : Nat) :
    next_available_ts db now uid = none ↔
      (db.logs.filter (matchUserRow now uid)).length < DAILY_FREE_LIMIT := by
  unfold next_available_ts
  have hlen : (sortDesc (db.logs.filter (matchUserRow now uid))).length
      = (db.logs.filter (matchUserRow now uid)).length := by
    unfold sortDesc
    exact List.length_insertionSort _ _
  by_cases h : (sortDesc (db.logs.filter (matchUserRow now uid))).length
      < DAILY_FREE_LIMIT
  · rw [if_pos h]
    simp only [true_iff]
    rw [← hlen]
    exact h
  · rw [if_neg h]
    have h1 : DAILY_FREE_LIMIT - 1
        < (sortDesc (db.logs.filter (matchUserRow now uid))).length := by
      simp only [DAILY_FREE_LIMIT] at h ⊢
      omega
    rw [List.getElem?_eq_getElem h1]
    constructor
    · intro hx
      cases hx
    · intro hx
      rw [← hlen] at hx
      exact absurd hx h

/-- C6 counterexample: calling `/credits` as a guest with no guest record
creates one — the call is not a pure read, refuting "no guest record
changes as a result of the call" — and the claim's "next_available_ts
(null when not currently blocked)" is also false: a verified user with 5
prepaid credits and two in-window events is not blocked (the same
request at the same instant succeeds via the prepaid bucket), yet the
endpoint reports a non-null `next_available_ts`. -/
theorem C6_describe_mutates :
    (creditsEP dbEmptyW 5 none none "g1").2 ≠ dbEmptyW ∧
    ∃ c, (creditsEP dbPrepaidW 100 (some 1) none "g").1 = some c ∧
      c.next_available_ts ≠ none ∧
      (style_image dbPrepaidW 100 (some 1) none "f" reqW "mock" true).1
        = .ok "prepaid" := by
  refine ⟨by decide,
    { kind := "user", verified := true, free_credits := some 5,
      guest_credits := none, daily_limit := 2, used_last_24h := 2,
      next_available_ts := some 86440 },
    by decide, by decide, by decide⟩

/-- C6 (amended): `/credits` returns the current balances and the
trailing-24h usage count of the stored state, and a `next_available_ts`
that is null exactly when the identity has fewer than `DAILY_FREE_LIMIT`
usage events in the trailing window — not "null when not currently
blocked", since a verified user with prepaid credits and a full window
is not blocked yet receives a non-null value.  The call changes no
credit balance, user flag, usage event or upload: a logged-in user's
call mutates nothing at all, while for a guest the identity resolution
inside the endpoint creates the guest row on first contact and
refreshes its `last_seen`, preserving every guest's credit balance. -/
theorem C6_describe_readonly (db : DB) (now : Nat) (user : Option Nat)
    (cookie : Option String) (fresh : String) :
    (∀ uid, user = some uid →
      (creditsEP db now user cookie fresh).2 = db ∧
      ∀ u, lookupUser db uid = some u →
        (creditsEP db now user cookie fresh).1 = some
          { kind := "user", verified := u.is_verified,
            free_credits := some u.free_credits, guest_credits := none,
            daily_limit := DAILY_FREE_LIMIT,
            used_last_24h := count_last_24h db now (some uid) none,
            next_available_ts := next_available_ts db now uid } ∧
        (next_available_ts db now uid = none ↔
          (db.logs.filter (matchUserRow now uid)).length < DAILY_FREE_LIMIT)) ∧
    (user = none →
      (creditsEP db now user cookie fresh).2.users = db.users ∧
      (creditsEP db now user cookie fresh).2.logs = db.logs ∧
      (creditsEP db now user cookie fresh).2.uploads = db.uploads ∧
      (∀ gid g, lookupGuest db gid = some g →
        ∃ g', lookupGuest (creditsEP db now user cookie fresh).2 gid = some g' ∧
          g'.credits = g.credits) ∧
      ∃ c g', (creditsEP db now user cookie fresh).1 = some c ∧
        lookupGuest (creditsEP db now user cookie fresh).2 (resolveGid cookie fresh)
          = some g' ∧
        c.guest_credits = some g'.credits ∧
        c.next_available_ts = none) := by
  constructor
  · intro uid hu
    subst hu
    constructor
    · cases h : lookupUser db uid <;> simp [creditsEP, h]
    · intro u hu'
      refine ⟨by simp [creditsEP, hu'], next_available_none_iff db now uid⟩
  · intro hn
    subst hn
    cases hlk : lookupGuest db (resolveGid cookie fresh) with
    | none =>
        simp only [creditsEP]
        rw [get_or_create_guest_of_none db now cookie fresh hlk]
        refine ⟨rfl, rfl, rfl, setGuest_preserves_credits db _ _
          (fun g0 hg0 => by rw [hlk] at hg0; cases hg0), ?_⟩
        exact ⟨_, { credits := 2, last_seen := now }, rfl,
          lookupGuest_setGuest_self _ _ _, rfl, rfl⟩
    | some g0 =>
        simp only [creditsEP]
        rw [get_or_create_guest_of_some db now cookie fresh g0 hlk]
        refine ⟨rfl, rfl, rfl, setGuest_preserves_credits db _ _
          (fun g1 hg1 => by rw [hlk] at hg1; cases hg1; rfl), ?_⟩
        exact ⟨_, { g0 with last_seen := now }, rfl,
          lookupGuest_setGuest_self _ _ _, rfl, rfl⟩

/-- Witness for the amended C6: a user call returns the state unchanged. -/
theorem C6_describe_readonly_witness :
    (creditsEP dbPrepaidW 100 (some 1) none "g").2 = dbPrepaidW :=
  ((C6_describe_readonly dbPrepaidW 100 (some 1) none "g").1 1 rfl).1

/-- C7: every permitted `/style-image` call (provider `mock` or
`stability`) appends exactly one usage-log row, carrying the acting
identity and the current timestamp, regardless of whether the provider
call succeeded (`providerOk` arbitrary) and uniformly for every
accounting bucket (`b` arbitrary). -/
theorem C7_usage_logged_once (db : DB) (now : Nat) (user : Option Nat)
    (cookie : Option String) (fresh : String) (req : StyleReq) (provider : String)
    (providerOk : Bool) (b : String)
    (hp : provider = "mock" ∨ provider = "stability")
    (hok : (style_image db now user cookie fresh req provider providerOk).1 = .ok b) :
    ∃ e : GenLog,
      (style_image db now user cookie fresh req provider providerOk).2.logs
        = db.logs ++ [e] ∧
      e.created_at = now ∧
      (∀ uid, user = some uid → e.user_id = some uid ∧ e.guest_id = none) ∧
      (user = none → e.user_id = none ∧ e.guest_id = some (resolveGid cookie fresh)) := by
  by_cases hct : pyStartsWith (pyLower req.ctype) "image/" = true
  · by_cases hsz : req.size ≤ 8 * 1024 * 1024
    · rw [style_image_valid db now user cookie fresh req provider providerOk hct hsz] at hok ⊢
      obtain ⟨who, db2, henf, hlogs⟩ := stylePost_ok_inv _ now user cookie fresh
        provider providerOk b hp hok
      have hwho := enforce_proceed_who _ now user cookie fresh who b db2 henf
      have hf := (enforce_frame { db with uploads := db.uploads ++ [safeName now req.fname] }
        now user cookie fresh).1
      rw [henf] at hf
      simp only [EnforceOut.dbOf] at hf
      refine ⟨{ user_id := whoUserId who, guest_id := whoGuestId who, created_at := now },
        ?_, rfl, ?_, ?_⟩
      · rw [hlogs, hf]
      · intro uid hu
        rw [hwho.1 uid hu]
        exact ⟨rfl, rfl⟩
      · intro hn
        rw [hwho.2 hn]
        exact ⟨rfl, rfl⟩
    · have hx : 8 * 1024 * 1024 < req.size := Nat.not_le.mp hsz
      simp [style_image, hct, hx] at hok
  · have hx : pyStartsWith (pyLower req.ctype) "image/" = false := by
      revert hct
      cases pyStartsWith (pyLower req.ctype) "image/" <;> simp
    simp [style_image, hx] at hok

/-- Witness for C7: the permitted guest call above appends its one log
row. -/
theorem C7_usage_logged_once_witness :
    ∃ e : GenLog,
      (style_image guestDBW 10 none (some "g") "f" reqW "mock" true).2.logs
        = guestDBW.logs ++ [e] ∧
      e.created_at = 10 ∧
      (∀ uid, (none : Option Nat) = some uid → e.user_id = some uid ∧ e.guest_id = none) ∧
      ((none : Option Nat) = none → e.user_id = none ∧
        e.guest_id = some (resolveGid (some "g") "f")) :=
  C7_usage_logged_once guestDBW 10 none (some "g") "f" reqW "mock" true "guest"
    (Or.inl rfl) (by decide)

/-- A daily-limit denial from `/style-image`, inverted: the user exists,
is not on the prepaid branch, the window count has reached the limit,
and the payload's fields are the computed count, the constant limit, and
`retryWait` of `next_available_ts`. -/
theorem style_user_denied_inv (db : DB) (now uid : Nat) (cookie : Option String)
    (fresh : String) (req : StyleReq) (provider : String) (providerOk : Bool)
    (used lim w : Nat)
    (hden : (style_image db now (some uid) cookie fresh req provider providerOk).1
      = .denied (.deniedDaily used lim w)) :
    ∃ u, lookupUser db uid = some u ∧
      (u.is_verified = false ∨ u.free_credits ≤ 0) ∧
      DAILY_FREE_LIMIT ≤ count_last_24h db now (some uid) none ∧
      used = count_last_24h db now (some uid) none ∧
      lim = DAILY_FREE_LIMIT ∧
      w = retryWait (next_available_ts db now uid) now := by
  by_cases hct : pyStartsWith (pyLower req.ctype) "image/" = true
  · by_cases hsz : req.size ≤ 8 * 1024 * 1024
    · rw [style_image_valid db now (some uid) cookie fresh req provider providerOk
        hct hsz] at hden
      have h1 := stylePost_denied_inv _ now (some uid) cookie fresh provider
        providerOk _ hden
      obtain ⟨u, hu, hnv, hq, hdeq, hdb⟩ := enforce_user_denied_inv _ now uid
        cookie fresh _ _ h1
      injection hdeq with e1 e2 e3
      exact ⟨u, by simpa using hu, hnv, by simpa using hq, by simpa using e1,
        e2, by simpa using e3⟩
    · have hx : 8 * 1024 * 1024 < req.size := Nat.not_le.mp hsz
      simp [style_image, hct, hx] at hden
  · have hx : pyStartsWith (pyLower req.ctype) "image/" = false := by
      revert hct
      cases pyStartsWith (pyLower req.ctype) "image/" <;> simp
    simp [style_image, hx] at hden

/-- C4 counterexample: at the exact window boundary the denial carries
`retry_after = 0`, refuting the claim's "strictly greater than 0".  User
1 is verified with no prepaid credits and has events at times 0 and 1;
at `now = 86400` both are still inside the window (the filter is
`created_at ≥ now − 24h`, inclusive), so the request is denied, and
`t_k = 0` gives `retry_after = (0 + 86400) − 86400 = 0`. -/
theorem C4_retry_zero_at_boundary :
    (style_image dbBoundaryW 86400 (some 1) none "f" reqW "mock" true).1
      = .denied (.deniedDaily 2 2 0) := by
  decide

/-- C4 (amended): every `Denied{DailyLimitReached}` carries
`retry_after = (t_k + 24h) − now` where `t_k` is the timestamp of the
`DAILY_FREE_LIMIT`-th most recent usage event of that user inside the
trailing window (at least `DAILY_FREE_LIMIT` in-window events are at or
after `t_k` and fewer are strictly after it); `retry_after` is at most
24 hours, and is non-negative but can be exactly 0 when `t_k` sits on
the window boundary. -/
theorem C4_retry_after_bounds (db : DB) (now uid : Nat) (cookie : Option String)
    (fresh : String) (req : StyleReq) (provider : String) (providerOk : Bool)
    (used lim w : Nat) (huid : uid ≠ 0)
    (hts : ∀ l ∈ db.logs, l.created_at ≤ now)
    (hden : (style_image db now (some uid) cookie fresh req provider providerOk).1
      = .denied (.deniedDaily used lim w)) :
    ∃ tk, next_available_ts db now uid = some (tk + WINDOW) ∧
      (∃ l ∈ db.logs, l.user_id = some uid ∧ now - WINDOW ≤ l.created_at ∧
        l.created_at = tk) ∧
      DAILY_FREE_LIMIT ≤
        ((db.logs.filter (matchUserRow now uid)).filter
          (fun l => decide (tk ≤ l.created_at))).length ∧
      ((db.logs.filter (matchUserRow now uid)).filter
          (fun l => decide (tk < l.created_at))).length < DAILY_FREE_LIMIT ∧
      now + w = tk + WINDOW ∧
      w ≤ WINDOW := by
  obtain ⟨u, hu, hnv, hq, he1, he2, he3⟩ := style_user_denied_inv db now uid cookie
    fresh req provider providerOk used lim w hden
  obtain ⟨tk, hna, hev, hge, hlt⟩ := denial_next_ts db now uid huid hq
  obtain ⟨l, hl, hluid, hlwin, hltk⟩ := hev
  have htk_now : tk ≤ now := hltk ▸ hts l hl
  have hw : w = tk + WINDOW - now := by
    rw [he3, hna]
    show (if ((tk + WINDOW) == 0) = true then 3600 else tk + WINDOW - now)
      = tk + WINDOW - now
    rw [if_neg (by simp [WINDOW])]
  refine ⟨tk, hna, ⟨l, hl, hluid, hlwin, hltk⟩, hge, hlt, ?_, ?_⟩
  · rw [hw]
    have : now - WINDOW ≤ tk := hltk ▸ hlwin
    omega
  · rw [hw]
    omega

/-- Witness for the amended C4: the boundary denial above has
`next_available_ts = 0 + 24h` and `retry_after = 0 = (t_k + 24h) − now`. -/
theorem C4_retry_after_bounds_witness :
    ∃ tk, next_available_ts dbBoundaryW 86400 1 = some (tk + WINDOW) ∧
      (∃ l ∈ dbBoundaryW.logs, l.user_id = some 1 ∧
        86400 - WINDOW ≤ l.created_at ∧ l.created_at = tk) ∧
      DAILY_FREE_LIMIT ≤
        ((dbBoundaryW.logs.filter (matchUserRow 86400 1)).filter
          (fun l => decide (tk ≤ l.created_at))).length ∧
      ((dbBoundaryW.logs.filter (matchUserRow 86400 1)).filter
          (fun l => decide (tk < l.created_at))).length < DAILY_FREE_LIMIT ∧
      86400 + 0 = tk + WINDOW ∧
      0 ≤ WINDOW :=
  C4_retry_after_bounds dbBoundaryW 86400 1 none "f" reqW "mock" true 2 2 0
    (by decide) (by decide) (by decide)

/-- C9: `/credits` queried in the same state and at the same instant as a
`Denied{DailyLimitReached}` response reports the same `used_last_24h` the
denial carried, and a `next_available_ts` equal to `now + retry_after` —
both are computed from the same usage-log state. -/
theorem C9_describe_after_denial (db : DB) (now uid : Nat)
    (cookie cookie2 : Option String) (fresh fresh2 : String) (req : StyleReq)
    (provider : String) (providerOk : Bool) (used lim w : Nat)
    (huid : uid ≠ 0)
    (hden : (style_image db now (some uid) cookie fresh req provider providerOk).1
      = .denied (.deniedDaily used lim w)) :
    ∃ c, (creditsEP db now (some uid) cookie2 fresh2).1 = some c ∧
      c.used_last_24h = used ∧
      c.next_available_ts = some (now + w) := by
  obtain ⟨u', hu', hnv, hq, he1, he2, he3⟩ := style_user_denied_inv db now uid cookie
    fresh req provider providerOk used lim w hden
  obtain ⟨tk, hna, hev, hge, hlt⟩ := denial_next_ts db now uid huid hq
  obtain ⟨l, hl, hluid, hlwin, hltk⟩ := hev
  have hw : w = tk + WINDOW - now := by
    rw [he3, hna]
    show (if ((tk + WINDOW) == 0) = true then 3600 else tk + WINDOW - now)
      = tk + WINDOW - now
    rw [if_neg (by simp [WINDOW])]
  have hcred : (creditsEP db now (some uid) cookie2 fresh2).1
      = some { kind := "user", verified := u'.is_verified,
               free_credits := some u'.free_credits, guest_credits := none,
               daily_limit := DAILY_FREE_LIMIT,
               used_last_24h := count_last_24h db now (some uid) none,
               next_available_ts := next_available_ts db now uid } := by
    simp [creditsEP, hu']
  refine ⟨_, hcred, ?_, ?_⟩
  · exact he1.symm
  · show next_available_ts db now uid = some (now + w)
    rw [hna, hw]
    have : now - WINDOW ≤ tk := hltk ▸ hlwin
    congr 1
    omega

/-- Witness for C9 at a concrete denial: the user with events at 40 and
50, denied at `now = 100` with `retry_after = 86340`, sees
`used_last_24h = 2` and `next_available_ts = 100 + 86340` from
`/credits`. -/
theorem C9_describe_after_denial_witness :
    ∃ c, (creditsEP dbQuotaW 100 (some 1) none "g").1 = some c ∧
      c.used_last_24h = 2 ∧
      c.next_available_ts = some (100 + 86340) :=
  C9_describe_after_denial dbQuotaW 100 1 none none "f" "g" reqW
    "mock" true 2 2 86340 (by decide) (by decide)

/-- After enforcement, the uploads directory either stays as it was or
additionally receives the styled output file. -/
theorem stylePost_uploads (db1 : DB) (now : Nat) (user : Option Nat)
    (cookie : Option String) (fresh : String) (provider : String)
    (providerOk : Bool) :
    (stylePost db1 now user cookie fresh provider providerOk).2.uploads = db1.uploads ∨
    (stylePost db1 now user cookie fresh provider providerOk).2.uploads
      = db1.uploads ++ [toString now ++ "_styled.png"] := by
  have hf := (enforce_frame db1 now user cookie fresh).2
  cases he : enforce db1 now user cookie fresh with
  | denied d db2 =>
      unfold stylePost
      rw [he] at hf ⊢
      simp only [EnforceOut.dbOf] at hf
      simp only [stylePostCore]
      exact Or.inl hf
  | error db2 =>
      unfold stylePost
      rw [he] at hf ⊢
      simp only [EnforceOut.dbOf] at hf
      simp only [stylePostCore]
      exact Or.inl hf
  | proceed who bucket db2 =>
      unfold stylePost
      rw [he] at hf ⊢
      simp only [EnforceOut.dbOf] at hf
      simp only [stylePostCore]
      unfold styleGen
      by_cases hm : (provider == "mock") = true
      · rw [if_pos hm]
        exact Or.inl hf
      · rw [if_neg hm]
        by_cases hs : (provider == "stability") = true
        · rw [if_pos hs]
          cases providerOk
          · exact Or.inl hf
          · refine Or.inr ?_
            show db2.uploads ++ [toString now ++ "_styled.png"]
              = db1.uploads ++ [toString now ++ "_styled.png"]
            rw [hf]
        · rw [if_neg hs]
          exact Or.inl hf

/-- C10: with a valid image upload, `/style-image` stores the file before
the entitlement check, so the file is present in the uploads directory on
every outcome — in particular on a denial — while a denied request leaves
all entitlement state (user rows, usage log, guest balances) unchanged,
the stored file being the only new state. -/
theorem C10_upload_persists (db : DB) (now : Nat) (user : Option Nat)
    (cookie : Option String) (fresh : String) (req : StyleReq) (provider : String)
    (providerOk : Bool)
    (hct : pyStartsWith (pyLower req.ctype) "image/" = true)
    (hsz : req.size ≤ 8 * 1024 * 1024) :
    safeName now req.fname
      ∈ (style_image db now user cookie fresh req provider providerOk).2.uploads ∧
    (∀ d, (style_image db now user cookie fresh req provider providerOk).1 = .denied d →
      (style_image db now user cookie fresh req provider providerOk).2.users = db.users ∧
      (style_image db now user cookie fresh req provider providerOk).2.logs = db.logs ∧
      (style_image db now user cookie fresh req provider providerOk).2.uploads
        = db.uploads ++ [safeName now req.fname] ∧
      ∀ gid g, lookupGuest db gid = some g →
        ∃ g', lookupGuest (style_image db now user cookie fresh req provider providerOk).2
          gid = some g' ∧ g'.credits = g.credits) := by
  rw [style_image_valid db now user cookie fresh req provider providerOk hct hsz]
  have hmem : safeName now req.fname
      ∈ ({ db with uploads := db.uploads ++ [safeName now req.fname] } : DB).uploads := by
    simp
  constructor
  · rcases stylePost_uploads { db with uploads := db.uploads ++ [safeName now req.fname] }
      now user cookie fresh provider providerOk with h | h
    · rw [h]
      exact hmem
    · rw [h]
      exact List.mem_append_left _ hmem
  · intro d hd
    have hinv := stylePost_denied_inv _ now user cookie fresh provider providerOk d hd
    obtain ⟨hus, hlg, hup, hgc⟩ := enforce_denied_frame _ now user cookie fresh d _ hinv
    refine ⟨by rw [hus], by rw [hlg], by rw [hup], ?_⟩
    intro gid g hg
    exact hgc gid g (by simpa using hg)

/-- Witness for C10: a guest with exhausted credits is denied, yet the
uploaded file name is in the uploads directory and the guest's balance is
untouched. -/
theorem C10_upload_persists_witness :
    safeName 10 reqW.fname
      ∈ (style_image
          { users := [], guests := [("g", { credits := 0, last_seen := 0 })],
            logs := [], uploads := [] }
          10 none (some "g") "f" reqW "mock" true).2.uploads :=
  (C10_upload_persists
    { users := [], guests := [("g", { credits := 0, last_seen := 0 })],
      logs := [], uploads := [] }
    10 none (some "g") "f" reqW "mock" true (by decide) (by decide)).1

/-! ### Non-negativity of every balance, preserved by every operation -/

theorem lookupUser_nonneg (db : DB) (uid : Nat) (u : UserRec)
    (h : NonNeg db) (hu : lookupUser db uid = some u) : 0 ≤ u.free_credits :=
  lookupA_P (fun v => 0 ≤ v.free_credits) db.users uid u h.1 hu

theorem lookupGuest_nonneg (db : DB) (gid : String) (g : GuestRec)
    (h : NonNeg db) (hg : lookupGuest db gid = some g) : 0 ≤ g.credits :=
  lookupA_P (fun v => 0 ≤ v.credits) db.guests gid g h.2 hg

theorem nonneg_setUser (db : DB) (uid : Nat) (u : UserRec)
    (h : NonNeg db) (hu : 0 ≤ u.free_credits) : NonNeg (setUser db uid u) := by
  refine ⟨?_, h.2⟩
  exact setA_values (fun v => 0 ≤ v.free_credits) db.users uid u h.1 hu

theorem nonneg_setGuest (db : DB) (gid : String) (g : GuestRec)
    (h : NonNeg db) (hg : 0 ≤ g.credits) : NonNeg (setGuest db gid g) := by
  refine ⟨h.1, ?_⟩
  exact setA_values (fun v => 0 ≤ v.credits) db.guests gid g h.2 hg

theorem enforce_nonneg (db : DB) (now : Nat) (user : Option Nat)
    (cookie : Option String) (fresh : String) (h : NonNeg db) :
    NonNeg (enforce db now user cookie fresh).dbOf := by
  cases user with
  | some uid =>
      simp only [enforce]
      cases hu : lookupUser db uid with
      | none => exact h
      | some u =>
          simp only [userDebitCheck]
          by_cases hv : (u.is_verified && decide (0 < u.free_credits)) = true
          · rw [if_pos hv]
            simp only [Bool.and_eq_true, decide_eq_true_eq] at hv
            exact nonneg_setUser db uid _ h
              (by show (0:Int) ≤ u.free_credits - 1; have := hv.2; omega)
          · rw [if_neg hv]
            by_cases hq : DAILY_FREE_LIMIT ≤ count_last_24h db now (some uid) none
            · rw [if_pos hq]; exact h
            · rw [if_neg hq]; exact h
  | none =>
      simp only [enforce]
      cases hlk : lookupGuest db (resolveGid cookie fresh) with
      | none =>
          rw [get_or_create_guest_of_none db now cookie fresh hlk,
            lookupGuest_setGuest_self]
          simp only [guestDebitCheck]
          rw [if_neg (show ¬ ({ credits := 2, last_seen := now } : GuestRec).credits ≤ 0 by
            show ¬ (2:Int) ≤ 0; omega)]
          rw [setGuest_setGuest]
          exact nonneg_setGuest db _ _ h (by show (0:Int) ≤ 2 - 1; omega)
      | some g =>
          rw [get_or_create_guest_of_some db now cookie fresh g hlk,
            lookupGuest_setGuest_self]
          simp only [guestDebitCheck]
          have hgc : 0 ≤ g.credits := lookupGuest_nonneg db _ g h hlk
          by_cases hc : ({ g with last_seen := now } : GuestRec).credits ≤ 0
          · rw [if_pos hc]
            exact nonneg_setGuest db _ _ h hgc
          · rw [if_neg hc]
            rw [setGuest_setGuest]
            refine nonneg_setGuest db _ _ h ?_
            show (0:Int) ≤ g.credits - 1
            have : ¬ g.credits ≤ 0 := hc
            omega

theorem stylePost_nonneg (db1 : DB) (now : Nat) (user : Option Nat)
    (cookie : Option String) (fresh : String) (provider : String)
    (providerOk : Bool) (h : NonNeg db1) :
    NonNeg (stylePost db1 now user cookie fresh provider providerOk).2 := by
  have he := enforce_nonneg db1 now user cookie fresh h
  unfold stylePost
  cases henf : enforce db1 now user cookie fresh with
  | denied d db2 =>
      rw [henf] at he
      simp only [EnforceOut.dbOf] at he
      simp only [stylePostCore]
      exact he
  | error db2 =>
      rw [henf] at he
      simp only [EnforceOut.dbOf] at he
      simp only [stylePostCore]
      exact he
  | proceed who bucket db2 =>
      rw [henf] at he
      simp only [EnforceOut.dbOf] at he
      simp only [stylePostCore]
      unfold styleGen
      by_cases hm : (provider == "mock") = true
      · rw [if_pos hm]; exact he
      · rw [if_neg hm]
        by_cases hs : (provider == "stability") = true
        · rw [if_pos hs]
          cases providerOk <;> exact he
        · rw [if_neg hs]; exact he

theorem style_image_nonneg (db : DB) (now : Nat) (user : Option Nat)
    (cookie : Option String) (fresh : String) (req : StyleReq) (provider : String)
    (providerOk : Bool) (h : NonNeg db) :
    NonNeg (style_image db now user cookie fresh req provider providerOk).2 := by
  unfold style_image
  by_cases hct : (!(pyStartsWith (pyLower req.ctype) "image/")) = true
  · rw [if_pos hct]; exact h
  · rw [if_neg hct]
    by_cases hsz : 8 * 1024 * 1024 < req.size
    · rw [if_pos hsz]; exact h
    · rw [if_neg hsz]
      exact stylePost_nonneg _ now user cookie fresh provider providerOk ⟨h.1, h.2⟩

theorem creditsEP_nonneg (db : DB) (now : Nat) (user : Option Nat)
    (cookie : Option String) (fresh : String) (h : NonNeg db) :
    NonNeg (creditsEP db now user cookie fresh).2 := by
  cases user with
  | some uid =>
      simp only [creditsEP]
      cases hu : lookupUser db uid with
      | none => exact h
      | some u => exact h
  | none =>
      simp only [creditsEP]
      cases hlk : lookupGuest db (resolveGid cookie fresh) with
      | none =>
          rw [get_or_create_guest_of_none db now cookie fresh hlk]
          exact nonneg_setGuest db _ _ h (by show (0:Int) ≤ 2; omega)
      | some g =>
          rw [get_or_create_guest_of_some db now cookie fresh g hlk]
          exact nonneg_setGuest db _ _ h (lookupGuest_nonneg db _ g h hlk)

theorem applyVerify_nonneg (u : UserRec) (h : 0 ≤ u.free_credits) :
    0 ≤ (applyVerify u).free_credits := by
  unfold applyVerify
  by_cases hc : u.verify_bonus_claimed = true
  · rw [if_pos hc]; exact h
  · rw [if_neg hc]
    show (0:Int) ≤ u.free_credits + 2
    omega

theorem verify_email_nonneg (db : DB) (uid : Nat) (h : NonNeg db) :
    NonNeg (verify_email db uid) := by
  unfold verify_email
  cases hu : lookupUser db uid with
  | none => exact h
  | some u =>
      exact nonneg_setUser db uid _ h
        (applyVerify_nonneg u (lookupUser_nonneg db uid u h hu))

theorem register_nonneg (db : DB) (email : String) (freshUid : Nat)
    (h : NonNeg db) : NonNeg (register db email freshUid) := by
  unfold register
  cases lookupUserByEmail db email with
  | some p => exact h
  | none => exact nonneg_setUser db freshUid _ h (by show (0:Int) ≤ 0; omega)

theorem google_callback_nonneg (db : DB) (email : String) (ev : Bool)
    (freshUid : Nat) (h : NonNeg db) :
    NonNeg (google_callback db email ev freshUid) := by
  unfold google_callback
  cases hf : lookupUserByEmail db email with
  | none =>
      refine nonneg_setUser db freshUid _ h ?_
      show (0:Int) ≤ if ev = true then 2 else 0
      cases ev <;> simp
  | some p =>
      obtain ⟨uid, u⟩ := p
      have hmem : (uid, u) ∈ db.users := List.mem_of_find?_eq_some hf
      have hfree : 0 ≤ u.free_credits := h.1 (uid, u) hmem
      refine nonneg_setUser db uid _ h ?_
      have hver : (gcalVerify ev u).free_credits = u.free_credits := by
        unfold gcalVerify
        by_cases hb : (ev && !u.is_verified) = true
        · rw [if_pos hb]
        · rw [if_neg hb]
      unfold gcalBonus
      by_cases hb : (ev && !(gcalVerify ev u).verify_bonus_claimed) = true
      · rw [if_pos hb]
        show (0:Int) ≤ (gcalVerify ev u).free_credits + 2
        rw [hver]
        omega
      · rw [if_neg hb]
        rw [hver]
        exact hfree

theorem google_idtoken_nonneg (db : DB) (email : String) (freshUid : Nat)
    (h : NonNeg db) : NonNeg (google_idtoken_login db email freshUid) := by
  unfold google_idtoken_login
  cases lookupUserByEmail db email with
  | some p => exact h
  | none => exact nonneg_setUser db freshUid _ h (by show (0:Int) ≤ 2; omega)

theorem applyOp_nonneg (db : DB) (op : Op) (h : NonNeg db) :
    NonNeg (applyOp db op) := by
  cases op with
  | styleOp now user cookie fresh req provider providerOk =>
      exact style_image_nonneg db now user cookie fresh req provider providerOk h
  | creditsOp now user cookie fresh => exact creditsEP_nonneg db now user cookie fresh h
  | verifyEmailOp uid => exact verify_email_nonneg db uid h
  | verifyOtpOp uid => exact verify_email_nonneg db uid h
  | registerOp email freshUid => exact register_nonneg db email freshUid h
  | googleCallbackOp email ev freshUid => exact google_callback_nonneg db email ev freshUid h
  | googleIdtokenOp email freshUid => exact google_idtoken_nonneg db email freshUid h

/-- C8: no credit balance is ever negative: starting from any state whose
balances are all non-negative, every sequence of ledger operations — the
generation endpoint with its guarded debits, the credits query, and all
verification and account-creation paths — preserves non-negativity of
every user's `free_credits` and every guest's `credits`. -/
theorem C8_balances_nonneg (db : DB) (h : NonNeg db) (ops : List Op) :
    NonNeg (applyOps db ops) := by
  induction ops generalizing db with
  | nil => exact h
  | cons op rest ih => exact ih (applyOp db op) (applyOp_nonneg db op h)

/-- Witness for C8 on a concrete operation sequence from the empty state:
an account created by Google sign-in, verified, queried and charged. -/
theorem C8_balances_nonneg_witness :
    NonNeg (applyOps dbEmptyW
      [Op.googleIdtokenOp "a@b.c" 1, Op.verifyEmailOp 1,
       Op.creditsOp 7 (some 1) none "G",
       Op.styleOp 9 (some 1) none "f" reqW "mock" true]) :=
  C8_balances_nonneg dbEmptyW (by simp [NonNeg, dbEmptyW]) _

end Snap2Style
